import Mathlib

/-!
Verification of the SQL-Agent repository (src/llm.py, src/app.py): a shallow
embedding of the agent graph that sequences list-tables, schema lookup, query
generation, a self-check pass, and query execution, together with the two
pure pieces of the Streamlit layer (the stream error handler and the
path-keyed agent cache).

External collaborators (the language model, the three SQL tool adapters) are
parameters: opaque functions from their inputs to a message.
-/

namespace SQLAgent

/-- Message roles, per the langchain message taxonomy used in src/llm.py. -/
inductive Role : Type
  | system
  | user
  | assistant
  | tool
deriving DecidableEq, Repr

/-- A tool invocation request, as built in src/llm.py line 34: a tool name, a
mapping of named arguments (modelled as an association list), a correlation
identifier, and the "type" tag. -/
structure ToolCall : Type where
  name : String
  args : List (String × String)
  id : String
  type : String
deriving DecidableEq, Repr

/-- A conversation message: role, text content, an optional ordered list of
tool invocation requests (empty when absent), and an identifier. -/
structure Message : Type where
  role : Role
  content : String
  tool_calls : List ToolCall
  id : String
deriving DecidableEq, Repr

/-- `AIMessage(content)` with no tool calls (src/llm.py line 37). -/
def AIMessage (content : String) : Message :=
  { role := Role.assistant, content := content, tool_calls := [], id := "" }

/-- `AIMessage(content="", tool_calls=[...])` (src/llm.py line 35). -/
def AIMessageWithTools (content : String) (tool_calls : List ToolCall) : Message :=
  { role := Role.assistant, content := content, tool_calls := tool_calls, id := "" }

/-- A `{"role": "system", "content": ...}` dict message (src/llm.py lines 60, 83). -/
def systemMessage (content : String) : Message :=
  { role := Role.system, content := content, tool_calls := [], id := "" }

/-- A `{"role": "user", "content": ...}` dict message (src/llm.py line 85). -/
def userMessage (content : String) : Message :=
  { role := Role.user, content := content, tool_calls := [], id := "" }

/-- The tool bindings under which src/llm.py invokes the model: each
`llm.bind_tools(...)` call site produces a distinct bound model. -/
inductive ToolBinding : Type
  | schema_forced
  | run_query_optional
  | run_query_forced
deriving DecidableEq, Repr

/-- The external collaborators of the agent graph: the bound language model
and the three SQL tool adapters of the toolkit (src/llm.py lines 24-26). -/
structure Oracles : Type where
  model : ToolBinding → List Message → Message
  list_tables_tool : ToolCall → Message
  get_schema_tool : ToolCall → Message
  run_query_tool : ToolCall → Message

/-- The system prompt of generate_query (src/llm.py lines 48-58), with the
database dialect interpolated. -/
def generateQueryPrompt (dialect : String) : String :=
  "You are an agent designed to interact with a SQL database.\nGiven an input question, create a syntactically correct " ++ dialect ++ " query to run,\nthen look at the results of the query and return the answer. Unless the user\nspecifies a specific number of examples they wish to obtain, always limit your\nquery to at most 5 results.\n\nYou can order the results by a relevant column to return the most interesting\nexamples in the database. Never query for all the columns from a specific table,\nonly ask for the relevant columns given the question.\n\nDO NOT make any DML statements (INSERT, UPDATE, DELETE, DROP etc.) to the database."

/-- The review system prompt of check_query (src/llm.py lines 67-81), with the
database dialect interpolated. -/
def checkQueryPrompt (dialect : String) : String :=
  "You are a SQL expert with a strong attention to detail.\nDouble check the " ++ dialect ++ " query for common mistakes, including:\n- Using NOT IN with NULL values\n- Using UNION when UNION ALL should have been used\n- Using BETWEEN for exclusive ranges\n- Data type mismatch in predicates\n- Properly quoting identifiers\n- Using the correct number of arguments for functions\n- Casting to the correct data type\n- Using the proper columns for joins\n\nIf there are any of the above mistakes, rewrite the query. If there are no mistakes,\njust reproduce the original query.\n\nYou will call the appropriate tool to execute the query after running this check."

/-- The fixed tool call synthesized by list_tables (src/llm.py line 34). -/
def listTablesCall : ToolCall :=
  { name := "sql_db_list_tables", args := [], id := "list_tables", type := "tool_call" }

/-- The list_tables node (src/llm.py lines 32-38): unconditionally synthesize
a tool-call message, invoke the list-tables adapter, and append a summary. -/
def list_tables (tool : ToolCall → Message) (_state : List Message) : List Message :=
  let tool_call_message := AIMessageWithTools "" [listTablesCall]
  let tool_message := tool listTablesCall
  let response := AIMessage ("Available tables: " ++ tool_message.content)
  [tool_call_message, tool_message, response]

/-- The call_get_schema node (src/llm.py lines 40-44): invoke the model bound
to the schema tool with forced tool choice on the whole state. -/
def call_get_schema (model : ToolBinding → List Message → Message)
    (state : List Message) : List Message :=
  [model ToolBinding.schema_forced state]

/-- The generate_query node (src/llm.py lines 46-63): invoke the model, with
the run-query tool available but not forced, on the system prompt prepended
to the whole state. -/
def generate_query (dialect : String) (model : ToolBinding → List Message → Message)
    (state : List Message) : List Message :=
  [model ToolBinding.run_query_optional
    (systemMessage (generateQueryPrompt dialect) :: state)]

/-- The two-message input check_query passes to the bound model (src/llm.py
lines 83-87): the fixed review system prompt and the candidate query drawn
from the first tool call of the last message. `none` models the exceptions
raised by `state["messages"][-1]`, `.tool_calls[0]` and `["query"]` when the
corresponding element is missing. -/
def checkQueryModelInput (dialect : String) (state : List Message) :
    Option (List Message) :=
  match state.getLast? with
  | none => none
  | some last =>
    match last.tool_calls.head? with
    | none => none
    | some tc =>
      match tc.args.lookup "query" with
      | none => none
      | some q => some [systemMessage (checkQueryPrompt dialect), userMessage q]

/-- The check_query node (src/llm.py lines 65-89): invoke the model, bound to
the run-query tool with forced tool choice, on the two-message review input,
then overwrite the response identifier with the last message's identifier. -/
def check_query (dialect : String) (model : List Message → Message)
    (state : List Message) : Option (List Message) :=
  match checkQueryModelInput dialect state, state.getLast? with
  | some input, some last => some [{ model input with id := last.id }]
  | _, _ => none

/-- The graph nodes of src/llm.py lines 100-107, together with the START and
END sentinels of the graph library. -/
inductive Node : Type
  | START
  | list_tables
  | call_get_schema
  | get_schema
  | generate_query
  | check_query
  | run_query
  | END
deriving DecidableEq, Repr

/-- The branch predicate (src/llm.py lines 91-94): route to check_query when
the last message's tool_calls is truthy (non-empty), otherwise to END.
`none` models the exception raised on an empty message list. -/
def should_continue (state : List Message) : Option Node :=
  match state.getLast? with
  | none => none
  | some last =>
    some (if last.tool_calls.isEmpty then Node.END else Node.check_query)

/-- The unconditional edges of the graph (src/llm.py lines 112-119). -/
def edges : List (Node × Node) :=
  [(Node.START, Node.list_tables),
   (Node.list_tables, Node.call_get_schema),
   (Node.call_get_schema, Node.get_schema),
   (Node.get_schema, Node.generate_query),
   (Node.check_query, Node.run_query),
   (Node.run_query, Node.generate_query)]

/-- Successor nodes of a node given the current state: the unconditional
edges, plus the conditional edge installed at generate_query
(src/llm.py line 123). -/
def nextNodes (state : List Message) (n : Node) : List Node :=
  if n = Node.generate_query then
    match should_continue state with
    | none => []
    | some r => [r]
  else
    (edges.filter (fun e => e.1 == n)).map (fun e => e.2)

/-- Modelled from the spec: the prebuilt ToolNode wrapper used for the
get_schema and run_query nodes (src/llm.py lines 29-30) is graph-library
code absent from src/; per spec §4.1 it executes the pending tool invocation
requests of the last message against the adapter and appends the resulting
tool-result messages. `none` models the absence of a last message. -/
def tool_node (tool : ToolCall → Message) (state : List Message) :
    Option (List Message) :=
  match state.getLast? with
  | none => none
  | some last => some (last.tool_calls.map tool)

/-- The messages a node emits on a state: each node of src/llm.py returns a
dict `{"messages": [...]}` holding its new messages; `none` models a raised
exception. The START and END sentinels execute nothing. -/
def runNode (O : Oracles) (dialect : String) (n : Node) (state : List Message) :
    Option (List Message) :=
  match n with
  | Node.START => some []
  | Node.list_tables => some (list_tables O.list_tables_tool state)
  | Node.call_get_schema => some (call_get_schema O.model state)
  | Node.get_schema => tool_node O.get_schema_tool state
  | Node.generate_query => some (generate_query dialect O.model state)
  | Node.check_query => check_query dialect (O.model ToolBinding.run_query_forced) state
  | Node.run_query => tool_node O.run_query_tool state
  | Node.END => some []

/-- Modelled from the spec: the MessagesState accumulation reducer is
graph-library code absent from src/; per spec §3 every graph step returns
zero or more new messages that are concatenated to the end of the
conversation state. -/
def applyStep (state new : List Message) : List Message :=
  state ++ new

/-- One graph step: run the node on the state and accumulate its returned
messages into the conversation state. -/
def stepState (O : Oracles) (dialect : String) (n : Node) (state : List Message) :
    Option (List Message) :=
  (runNode O dialect n state).map (fun new => applyStep state new)

/-- A chat-history entry of the Streamlit layer (src/app.py lines 139,
173-178, 185-190): a role, a content string, the recorded step list
(opaque here), and a timestamp (opaque, modelled as a number). -/
structure ChatMessage : Type where
  role : String
  content : String
  steps : List String
  timestamp : Nat
deriving DecidableEq, Repr

/-- The except branch of the chat input handler (src/app.py lines 182-190):
append to the chat history an assistant entry whose content prefixes the
error text with "Sorry, I encountered an error: " and whose steps list is
empty. The surrounding try/except catches every exception, so the handler is
total and the prior history is never discarded. -/
def handle_stream_error (history : List ChatMessage) (err : String) (now : Nat) :
    List ChatMessage :=
  history ++
    [{ role := "assistant", content := "Sorry, I encountered an error: " ++ err,
       steps := [], timestamp := now }]

/-- Modelled from the spec: `st.cache_resource` on get_agent (src/app.py
lines 25-28) is Streamlit-library memoization absent from src/; per spec §5
the agent is built once per distinct database path and reused, keyed by the
path string. The cache is an association list; the Bool reports whether this
call ran the builder. -/
def get_agent {α : Type} (build : String → α) (cache : List (String × α))
    (path : String) : α × List (String × α) × Bool :=
  match cache.lookup path with
  | some a => (a, cache, false)
  | none => (build path, (path, build path) :: cache, true)

/-! Concrete fixtures used to instantiate the theorems below. -/

/-- A run-query tool call carrying a candidate query, as generate_query would
emit it. -/
def queryCall : ToolCall :=
  { name := "sql_db_query", args := [("query", "SELECT 1")], id := "call-1",
    type := "tool_call" }

/-- A generate_query response message requesting execution of `queryCall`. -/
def genMessage : Message :=
  { role := Role.assistant, content := "", tool_calls := [queryCall], id := "gen-1" }

/-- A one-message conversation state ending in a pending run-query request. -/
def fixtureState : List Message := [genMessage]

/-- A second run-query tool call carrying the same candidate query under a
different correlation identifier. -/
def queryCall2 : ToolCall :=
  { name := "sql_db_query", args := [("query", "SELECT 1")], id := "call-2",
    type := "tool_call" }

/-- A second generate_query response with different identifier and content
but the same candidate query. -/
def genMessage2 : Message :=
  { role := Role.assistant, content := "thinking", tool_calls := [queryCall2],
    id := "gen-2" }

/-- A longer conversation state with different history but the same pending
candidate query as `fixtureState`. -/
def fixtureState2 : List Message :=
  [{ role := Role.user, content := "How many albums are there?", tool_calls := [],
     id := "u-1" },
   genMessage2]

/-- A synthetic model response that carries plain content and no tool call. -/
def bareContentResponse : Message :=
  { role := Role.assistant, content := "There are 347 albums.", tool_calls := [],
    id := "run-1" }

/-- `bareContentResponse` after check_query overwrites its identifier with
the identifier of `genMessage`. -/
def checkedBare : Message :=
  { role := Role.assistant, content := "There are 347 albums.", tool_calls := [],
    id := "gen-1" }

/-- A synthetic model that answers every input with `bareContentResponse`. -/
def constModel : List Message → Message := fun _ => bareContentResponse

/-- The model input check_query builds from `fixtureState` on sqlite. -/
def ckInput : List Message :=
  [systemMessage (checkQueryPrompt "sqlite"), userMessage "SELECT 1"]

/-- A stub tool-result message. -/
def ltResult : Message :=
  { role := Role.tool, content := "Album, Track", tool_calls := [], id := "lt-1" }

/-- Stub external collaborators built from the fixtures. -/
def stubOracles : Oracles :=
  { model := fun _ _ => bareContentResponse,
    list_tables_tool := fun _ => ltResult,
    get_schema_tool := fun _ => ltResult,
    run_query_tool := fun _ => ltResult }

/-- A final-answer message with no tool calls. -/
def emptyMessage : Message :=
  { role := Role.assistant, content := "done", tool_calls := [], id := "fin-1" }

/-! Theorems settling the claims. -/

/-- C1: every graph step extends the conversation state monotonically: the
incoming state is a prefix of the outgoing state — so no previously present
message is deleted, truncated, reordered or changed, and each node appends
zero or more new messages to the end — and the length never shrinks. This
holds for every node, including check_query, whose returned message carries
the identifier of the last message of the incoming state. -/
theorem conversation_state_monotone (O : Oracles) (dialect : String) (n : Node)
    (s s' : List Message) (h : stepState O dialect n s = some s') :
    s <+: s' ∧ s.length ≤ s'.length := by
  cases hr : runNode O dialect n s with
  | none =>
    unfold stepState at h
    rw [hr] at h
    simp at h
  | some new =>
    unfold stepState at h
    rw [hr] at h
    simp only [Option.map_some', Option.some.injEq] at h
    subst h
    exact ⟨List.prefix_append s new, by simp [applyStep]⟩

/-- Witness for C1 at the list_tables node on `fixtureState`. -/
theorem conversation_state_monotone_witness :
    fixtureState <+: applyStep fixtureState
      (list_tables stubOracles.list_tables_tool fixtureState) ∧
    fixtureState.length ≤ (applyStep fixtureState
      (list_tables stubOracles.list_tables_tool fixtureState)).length :=
  conversation_state_monotone stubOracles "sqlite" Node.list_tables fixtureState _ rfl

/-- C2: the branch at generate_query routes to check_query exactly when the
last message's tool-call list is non-empty, and to END exactly when it is
empty; and END is a successor of no node other than generate_query. -/
theorem terminal_iff_no_tool_calls (s : List Message) (m : Message)
    (h : s.getLast? = some m) :
    (should_continue s = some Node.check_query ↔ m.tool_calls ≠ []) ∧
    (should_continue s = some Node.END ↔ m.tool_calls = []) ∧
    (∀ (n : Node) (s' : List Message), Node.END ∈ nextNodes s' n →
      n = Node.generate_query) := by
  have hs : should_continue s =
      some (if m.tool_calls.isEmpty then Node.END else Node.check_query) := by
    unfold should_continue
    rw [h]
  refine ⟨?_, ?_, ?_⟩
  · cases hm : m.tool_calls with
    | nil => rw [hm] at hs; simp [hs]
    | cons a t => rw [hm] at hs; simp [hs]
  · cases hm : m.tool_calls with
    | nil => rw [hm] at hs; simp [hs]
    | cons a t => rw [hm] at hs; simp [hs]
  · intro n s' hmem
    cases n with
    | generate_query => rfl
    | START => exact absurd hmem (by intro hc; simp [nextNodes, edges] at hc)
    | list_tables => exact absurd hmem (by intro hc; simp [nextNodes, edges] at hc)
    | call_get_schema => exact absurd hmem (by intro hc; simp [nextNodes, edges] at hc)
    | get_schema => exact absurd hmem (by intro hc; simp [nextNodes, edges] at hc)
    | check_query => exact absurd hmem (by intro hc; simp [nextNodes, edges] at hc)
    | run_query => exact absurd hmem (by intro hc; simp [nextNodes, edges] at hc)
    | END => exact absurd hmem (by intro hc; simp [nextNodes, edges] at hc)

/-- Witness for C2 on `fixtureState`, whose last message carries a tool call. -/
theorem terminal_iff_no_tool_calls_witness :
    should_continue fixtureState = some Node.check_query ↔
      genMessage.tool_calls ≠ [] :=
  (terminal_iff_no_tool_calls fixtureState genMessage rfl).1

/-- C5: the step relation has exactly the fixed topology of src/llm.py:
START to list_tables, the unconditional chain through call_get_schema,
get_schema and generate_query, the single branch point at generate_query
(towards check_query or END only), the loop check_query to run_query to
generate_query, and nothing else. -/
theorem graph_topology_fixed (s : List Message) :
    nextNodes s Node.START = [Node.list_tables] ∧
    nextNodes s Node.list_tables = [Node.call_get_schema] ∧
    nextNodes s Node.call_get_schema = [Node.get_schema] ∧
    nextNodes s Node.get_schema = [Node.generate_query] ∧
    nextNodes s Node.check_query = [Node.run_query] ∧
    nextNodes s Node.run_query = [Node.generate_query] ∧
    (∀ r, r ∈ nextNodes s Node.generate_query →
      r = Node.check_query ∨ r = Node.END) ∧
    nextNodes s Node.END = [] := by
  refine ⟨rfl, rfl, rfl, rfl, rfl, rfl, ?_, rfl⟩
  intro r hr
  have hr' : r ∈ (match should_continue s with
      | none => ([] : List Node)
      | some x => [x]) := hr
  cases hsc : should_continue s with
  | none => rw [hsc] at hr'; simp at hr'
  | some x =>
    rw [hsc] at hr'
    simp at hr'
    subst hr'
    unfold should_continue at hsc
    cases hl : s.getLast? with
    | none => rw [hl] at hsc; simp at hsc
    | some m =>
      rw [hl] at hsc
      simp only [Option.some.injEq] at hsc
      cases hm : m.tool_calls with
      | nil => rw [hm] at hsc; simp at hsc; right; exact hsc.symm
      | cons a t => rw [hm] at hsc; simp at hsc; left; exact hsc.symm

/-- C3 counterexample: fed the synthetic bare-content model response
`bareContentResponse`, check_query yields a message with an empty tool-call
list — a bare content message, not a message carrying exactly one tool
invocation request. -/
theorem check_query_bare_response_counterexample :
    check_query "sqlite" constModel fixtureState = some [checkedBare] ∧
    checkedBare.tool_calls = [] :=
  ⟨rfl, rfl⟩

/-- C3 (amended): check_query returns exactly the model's response message
with only its identifier overwritten; its tool-call list and content are the
synthetic response's own, so it carries exactly one run-query tool call only
when the synthetic response does, and a bare-content synthetic response
yields a bare content message (the forced tool choice is delegated to the
model binding, not enforced by check_query). -/
theorem check_query_passes_response_through (dialect : String)
    (model : List Message → Message) (s msgs input : List Message) (last : Message)
    (hin : checkQueryModelInput dialect s = some input)
    (hl : s.getLast? = some last)
    (h : check_query dialect model s = some msgs) :
    msgs = [{ model input with id := last.id }] ∧
    msgs.map Message.tool_calls = [(model input).tool_calls] ∧
    msgs.map Message.content = [(model input).content] := by
  unfold check_query at h
  rw [hin, hl] at h
  simp only [Option.some.injEq] at h
  subst h
  exact ⟨rfl, rfl, rfl⟩

/-- Witness for the amended C3 on `fixtureState` and the bare-content
synthetic response. -/
theorem check_query_passes_response_through_witness :
    [checkedBare] = [{ constModel ckInput with id := genMessage.id }] ∧
    [checkedBare].map Message.tool_calls = [(constModel ckInput).tool_calls] ∧
    [checkedBare].map Message.content = [(constModel ckInput).content] :=
  check_query_passes_response_through "sqlite" constModel fixtureState
    [checkedBare] ckInput genMessage rfl rfl rfl

/-- C4: every message check_query returns carries the identifier of the last
message of the incoming state, whatever identifier the model response
originally carried. -/
theorem check_query_id_overwrite (dialect : String)
    (model : List Message → Message) (s msgs : List Message) (last : Message)
    (h : check_query dialect model s = some msgs)
    (hl : s.getLast? = some last) :
    ∀ x ∈ msgs, x.id = last.id := by
  unfold check_query at h
  cases hin : checkQueryModelInput dialect s with
  | none => rw [hin] at h; simp at h
  | some input =>
    rw [hin, hl] at h
    simp only [Option.some.injEq] at h
    subst h
    intro x hx
    simp at hx
    subst hx
    rfl

/-- Witness for C4: the message returned on `fixtureState` carries the
identifier of `genMessage`, not the response's own "run-1". -/
theorem check_query_id_overwrite_witness : checkedBare.id = genMessage.id :=
  check_query_id_overwrite "sqlite" constModel fixtureState [checkedBare]
    genMessage rfl rfl checkedBare (by simp)

/-- C6: the input check_query passes to the model is a function of the
database dialect and the "query" argument of the first tool call of the last
message alone: any two states agreeing on that query string produce the
identical two-message input — the fixed review system prompt plus the query
as a user message — independent of every earlier message. -/
theorem check_query_input_depends_only_on_query (dialect : String)
    (s1 s2 : List Message) (l1 l2 : Message) (t1 t2 : ToolCall) (q : String)
    (h1 : s1.getLast? = some l1) (h2 : s2.getLast? = some l2)
    (ht1 : l1.tool_calls.head? = some t1) (ht2 : l2.tool_calls.head? = some t2)
    (hq1 : t1.args.lookup "query" = some q)
    (hq2 : t2.args.lookup "query" = some q) :
    checkQueryModelInput dialect s1 = checkQueryModelInput dialect s2 ∧
    checkQueryModelInput dialect s1 =
      some [systemMessage (checkQueryPrompt dialect), userMessage q] := by
  unfold checkQueryModelInput
  rw [h1, h2]
  simp [ht1, ht2, hq1, hq2]

/-- Witness for C6 on the two fixture states, which differ in history and in
the identifiers of their pending tool calls but agree on the query. -/
theorem check_query_input_depends_only_on_query_witness :
    checkQueryModelInput "sqlite" fixtureState =
      checkQueryModelInput "sqlite" fixtureState2 ∧
    checkQueryModelInput "sqlite" fixtureState =
      some [systemMessage (checkQueryPrompt "sqlite"), userMessage "SELECT 1"] :=
  check_query_input_depends_only_on_query "sqlite" fixtureState fixtureState2
    genMessage genMessage2 queryCall queryCall2 "SELECT 1" rfl rfl rfl rfl rfl rfl

/-- C7: list_tables ignores the incoming state entirely and returns exactly
three messages in order: a synthesized assistant tool-call message with
empty content requesting the list-tables tool with zero arguments, the
tool-result message from executing that tool, and an assistant summary
whose content is "Available tables: " followed by the tool result's
content. -/
theorem list_tables_unconditional (tool : ToolCall → Message)
    (s1 s2 : List Message) :
    list_tables tool s1 = list_tables tool s2 ∧
    list_tables tool s1 =
      [{ role := Role.assistant, content := "", tool_calls := [listTablesCall],
         id := "" },
       tool listTablesCall,
       { role := Role.assistant,
         content := "Available tables: " ++ (tool listTablesCall).content,
         tool_calls := [], id := "" }] ∧
    listTablesCall.name = "sql_db_list_tables" ∧
    listTablesCall.args = [] :=
  ⟨rfl, rfl, rfl, rfl⟩

/-- C8: check_query is undefined (raises, modelled as `none`) when the last
message has no tool calls or when its first tool call lacks a "query"
argument; and the branch predicate routes to check_query only when the last
message's tool-call list is non-empty, so the first error branch is
unreachable under the graph's routing. -/
theorem check_query_partiality_guarded (dialect : String)
    (model : List Message → Message) (s : List Message) (last : Message)
    (hl : s.getLast? = some last) :
    (last.tool_calls = [] → check_query dialect model s = none) ∧
    (∀ t, last.tool_calls.head? = some t → t.args.lookup "query" = none →
      check_query dialect model s = none) ∧
    (should_continue s = some Node.check_query → last.tool_calls ≠ []) := by
  refine ⟨?_, ?_, ?_⟩
  · intro hnil
    have hin : checkQueryModelInput dialect s = none := by
      unfold checkQueryModelInput
      rw [hl]
      simp [hnil]
    unfold check_query
    rw [hin]
  · intro t ht hq
    have hin : checkQueryModelInput dialect s = none := by
      unfold checkQueryModelInput
      rw [hl]
      simp [ht, hq]
    unfold check_query
    rw [hin]
  · intro hsc hnil
    unfold should_continue at hsc
    rw [hl] at hsc
    simp [hnil] at hsc

/-- Witness for C8: on a state whose last message has no tool calls,
check_query yields `none`. -/
theorem check_query_partiality_guarded_witness :
    check_query "sqlite" constModel [emptyMessage] = none :=
  (check_query_partiality_guarded "sqlite" constModel [emptyMessage]
    emptyMessage rfl).1 rfl

/-- C9: on any exception raised while streaming the agent, the chat input
handler appends to the history exactly one assistant entry whose content is
the error text prefixed with "Sorry, I encountered an error: " and whose
steps list is empty, and the prior history is preserved unchanged (it is a
prefix of the new history). -/
theorem stream_error_appends_inline_message (history : List ChatMessage)
    (err : String) (now : Nat) :
    handle_stream_error history err now =
      history ++
        [{ role := "assistant",
           content := "Sorry, I encountered an error: " ++ err,
           steps := [], timestamp := now }] ∧
    (handle_stream_error history err now).take history.length = history ∧
    history <+: handle_stream_error history err now :=
  ⟨rfl, by simp [handle_stream_error], List.prefix_append _ _⟩

/-- C10: get_agent is memoized per database path: a first call on a path
absent from the cache runs the builder and stores the pair; a repeat call on
the same path returns the identical cached pair with the cache unchanged and
without running the builder; a call on a distinct uncached path runs the
builder independently. -/
theorem get_agent_cached_per_path {α : Type} (build : String → α)
    (cache : List (String × α)) (p q : String)
    (hp : cache.lookup p = none) (hq : q ≠ p) (hq2 : cache.lookup q = none) :
    get_agent build cache p = (build p, (p, build p) :: cache, true) ∧
    get_agent build ((p, build p) :: cache) p =
      (build p, (p, build p) :: cache, false) ∧
    get_agent build ((p, build p) :: cache) q =
      (build q, (q, build q) :: (p, build p) :: cache, true) := by
  refine ⟨?_, ?_, ?_⟩
  · unfold get_agent
    rw [hp]
  · unfold get_agent
    simp [List.lookup]
  · unfold get_agent
    have hqp : (q == p) = false := beq_eq_false_iff_ne.mpr hq
    simp [List.lookup, hqp, hq2]

/-- Witness for C10 with a concrete builder and the paths "a.db", "b.db". -/
theorem get_agent_cached_per_path_witness :
    get_agent String.length ([] : List (String × Nat)) "a.db" =
      (4, [("a.db", 4)], true) ∧
    get_agent String.length [("a.db", 4)] "a.db" =
      (4, [("a.db", 4)], false) ∧
    get_agent String.length [("a.db", 4)] "b.db" =
      (4, [("b.db", 4), ("a.db", 4)], true) :=
  get_agent_cached_per_path String.length [] "a.db" "b.db" rfl
    (by decide) rfl

end SQLAgent
